import Mathlib

/-!
Shallow embedding of the resource-counter repository (AWS, Azure and GCP
variants).  Each cloud listing call is modelled by its outcome: an
`Except PyExc v` value standing for the data the call would return, or the
exception it would raise.  Probes, aggregators, the GCP folder walk and the
CSV sinks are translated function by function from the source; log output is
modelled as an explicit list of message strings returned alongside results.
-/

/-- Exceptions distinguished by the source: GCP probes catch only
googleapiclient HttpError, Python raises TypeError on an arity mismatch,
and everything else is some other exception. -/
inductive PyExc where
  | httpError
  | typeError
  | other
deriving DecidableEq, Repr

namespace AWS

/-- Per-(account, region) listing outcomes feeding the six AWS probes of
aws-resource-counter.py.  Each field is the result of the corresponding
boto3 listing: pages of reservations of instances for EC2, function lists,
per-cluster task lists, cluster lists, repository lists and per-repository
image lists. -/
structure RegionEnv where
  ec2Pages : Except PyExc (List (List (List Unit)))
  lambdaFunctions : Except PyExc (List Unit)
  ecsClusterTasks : Except PyExc (List (List Unit))
  eksClusters : Except PyExc (List Unit)
  ecrRepositories : Except PyExc (List Unit)
  ecrImages : Except PyExc (List (List Unit))

/-- count_running_ec2_instances_in_region: sums instance counts over all
reservations of all pages; the whole body is wrapped in
try/except Exception: return 0, with no logging call in the handler. -/
def count_running_ec2_instances_in_region
    (ec2Pages : Except PyExc (List (List (List Unit)))) : Nat × List String :=
  match ec2Pages with
  | .ok pages => ((pages.map (fun page => (page.map List.length).sum)).sum, [])
  | .error _ => (0, [])

/-- count_lambda_functions_in_region: length of the function list;
any exception yields 0 with no logging. -/
def count_lambda_functions_in_region
    (functions : Except PyExc (List Unit)) : Nat × List String :=
  match functions with
  | .ok fns => (fns.length, [])
  | .error _ => (0, [])

/-- count_ecs_fargate_tasks_in_region: sums task counts over all clusters;
any exception anywhere in the body yields 0 with no logging. -/
def count_ecs_fargate_tasks_in_region
    (clusterTasks : Except PyExc (List (List Unit))) : Nat × List String :=
  match clusterTasks with
  | .ok clusters => ((clusters.map List.length).sum, [])
  | .error _ => (0, [])

/-- count_eks_instances_in_region: length of the cluster list;
any exception yields 0 with no logging. -/
def count_eks_instances_in_region
    (clusters : Except PyExc (List Unit)) : Nat × List String :=
  match clusters with
  | .ok cs => (cs.length, [])
  | .error _ => (0, [])

/-- count_ecr_repositories_in_region: length of the repository list;
any exception yields 0 with no logging. -/
def count_ecr_repositories_in_region
    (repositories : Except PyExc (List Unit)) : Nat × List String :=
  match repositories with
  | .ok rs => (rs.length, [])
  | .error _ => (0, [])

/-- count_ecr_images_in_region: sums image counts over all repositories;
any exception anywhere in the body yields 0 with no logging. -/
def count_ecr_images_in_region
    (images : Except PyExc (List (List Unit))) : Nat × List String :=
  match images with
  | .ok repos => ((repos.map List.length).sum, [])
  | .error _ => (0, [])

/-- The per-region count dictionary built by count_resources_in_region. -/
structure RegionCounts where
  running_ec2_instances : Nat
  lambda_functions : Nat
  ecs_fargate_tasks : Nat
  eks_instances : Nat
  ecr_repositories : Nat
  ecr_images : Nat
deriving DecidableEq, Repr

/-- count_resources_in_region: runs the six probes for one region and
collects their counts into the region dictionary. -/
def count_resources_in_region (env : RegionEnv) : RegionCounts :=
  RegionCounts.mk
    (count_running_ec2_instances_in_region env.ec2Pages).1
    (count_lambda_functions_in_region env.lambdaFunctions).1
    (count_ecs_fargate_tasks_in_region env.ecsClusterTasks).1
    (count_eks_instances_in_region env.eksClusters).1
    (count_ecr_repositories_in_region env.ecrRepositories).1
    (count_ecr_images_in_region env.ecrImages).1

/-- The zero-initialised totals of count_resources (total_... = 0). -/
def zeroCounts : RegionCounts := RegionCounts.mk 0 0 0 0 0 0

/-- One step of the aggregation loop of count_resources (lines 299-305):
adds one region dictionary into the running totals. -/
def addCounts (acc c : RegionCounts) : RegionCounts :=
  RegionCounts.mk
    (acc.running_ec2_instances + c.running_ec2_instances)
    (acc.lambda_functions + c.lambda_functions)
    (acc.ecs_fargate_tasks + c.ecs_fargate_tasks)
    (acc.eks_instances + c.eks_instances)
    (acc.ecr_repositories + c.ecr_repositories)
    (acc.ecr_images + c.ecr_images)

/-- The reduction of count_resources: fold the per-region dictionaries into
the six totals, starting from zero. -/
def aggregateRegionCounts (l : List RegionCounts) : RegionCounts :=
  l.foldl addCounts zeroCounts

/-- A row of the resource_counts.csv file: either the header row written by
account mode, or a data row [account_id, six totals]. -/
inductive Row where
  | header
  | data (accountId : String) (counts : RegionCounts)
deriving DecidableEq, Repr

/-- Whether a CSV row is the header row. -/
def Row.isHeader : Row → Bool
  | .header => true
  | .data _ _ => false

/-- Number of header rows in a CSV file content. -/
def headerCount (rows : List Row) : Nat :=
  rows.countP Row.isHeader

/-- The environment of one member account in an org-mode run: the outcome of
assume_role_and_get_session, the outcome of get_active_regions, and the
listing outcomes for each region. -/
structure MemberEnv where
  accountId : String
  sessionOutcome : Except PyExc Unit
  regionsOutcome : Except PyExc (List String)
  regionEnv : String → RegionEnv

/-- The rows that one iteration of the org-mode member loop appends: none
when session creation or region enumeration fails (the loop logs and
continues to the next account), otherwise the single data row of aggregated
totals over all active regions. -/
def memberRows (m : MemberEnv) : List Row :=
  match m.sessionOutcome with
  | .error _ => []
  | .ok _ =>
    match m.regionsOutcome with
    | .error _ => []
    | .ok regions =>
      [Row.data m.accountId
        (aggregateRegionCounts
          (regions.map (fun r => count_resources_in_region (m.regionEnv r))))]

/-- All data rows appended over an org-mode run (one loop iteration per
member account, rows appended immediately and results cleared). -/
def orgRows (members : List MemberEnv) : List Row :=
  (members.map memberRows).flatten

/-- Org mode file effect: each successful member account opens
resource_counts.csv in append mode and writes its row; no header is ever
written on this path.  When no account writes, the file is untouched
(it is created only by the per-account open). -/
def orgRunFile (members : List MemberEnv) (file : Option (List Row)) :
    Option (List Row) :=
  match orgRows members with
  | [] => file
  | rows => some (file.getD [] ++ rows)

/-- The environment of an account-mode run: the outcome of
sts get_caller_identity, the outcome of get_active_regions, and the listing
outcomes for each region. -/
structure AccountEnv where
  identityOutcome : Except PyExc String
  regionsOutcome : Except PyExc (List String)
  regionEnv : String → RegionEnv

/-- The data row of an account-mode run. -/
def accountRow (acct : String) (regions : List String)
    (env : String → RegionEnv) : Row :=
  Row.data acct
    (aggregateRegionCounts (regions.map (fun r => count_resources_in_region (env r))))

/-- Account mode file effect: on an identity or region-enumeration failure
the run exits before touching the file; otherwise resource_counts.csv is
opened in write mode (truncating any previous content) and the header row
plus the single data row are written. -/
def accountRunFile (env : AccountEnv) (file : Option (List Row)) :
    Option (List Row) :=
  match env.identityOutcome with
  | .error _ => file
  | .ok acct =>
    match env.regionsOutcome with
    | .error _ => file
    | .ok regions => some [Row.header, accountRow acct regions env.regionEnv]

end AWS

namespace GCP

/-- Log message of count_running_compute_instances on HttpError. -/
def computeErrMsg (project_id : String) : String :=
  "An error occurred while counting running compute instances in project " ++ project_id

/-- Log message of count_cloud_functions on HttpError. -/
def functionsErrMsg (project_id : String) : String :=
  "An error occurred while counting Cloud Functions in project " ++ project_id

/-- Log message of count_gke_clusters on HttpError. -/
def gkeErrMsg (project_id : String) : String :=
  "An error occurred while counting GKE clusters in project " ++ project_id

/-- Log message of list_artifact_registry_repositories on HttpError. -/
def repoListErrMsg (project_id : String) : String :=
  "An error occurred while listing Artifact Registry repositories in project " ++ project_id

/-- Log message of count_artifact_registry_images on HttpError. -/
def imagesErrMsg (repository_name : String) : String :=
  "An error occurred while counting Artifact Registry Docker images in repository "
    ++ repository_name

/-- Per-project listing outcomes feeding the GCP probes of
gcp-resource-counter.py: the aggregatedList zones with their instance lists,
the pages of Cloud Functions, the GKE cluster list, the Artifact Registry
repository-name list, and the per-repository docker image list. -/
structure ProjEnv where
  computeZones : Except PyExc (List (List Unit))
  functionPages : Except PyExc (List (List Unit))
  gkeClusters : Except PyExc (List Unit)
  arRepositories : Except PyExc (List String)
  arImages : String → Except PyExc (List Unit)

/-- count_running_compute_instances: sums instances over all zones of the
aggregated listing; the except clause catches HttpError only, logging with
project context and returning 0; any other exception propagates. -/
def count_running_compute_instances (project_id : String)
    (computeZones : Except PyExc (List (List Unit))) :
    Except PyExc (Nat × List String) :=
  match computeZones with
  | .ok zones => .ok ((zones.map List.length).sum, [])
  | .error .httpError => .ok (0, [computeErrMsg project_id])
  | .error e => .error e

/-- count_cloud_functions: sums function-list lengths over all pages;
catches HttpError only (log and return 0); other exceptions propagate. -/
def count_cloud_functions (project_id : String)
    (functionPages : Except PyExc (List (List Unit))) :
    Except PyExc (Nat × List String) :=
  match functionPages with
  | .ok pages => .ok ((pages.map List.length).sum, [])
  | .error .httpError => .ok (0, [functionsErrMsg project_id])
  | .error e => .error e

/-- count_gke_clusters: length of the cluster list; catches HttpError only
(log and return 0); other exceptions propagate. -/
def count_gke_clusters (project_id : String)
    (clusters : Except PyExc (List Unit)) :
    Except PyExc (Nat × List String) :=
  match clusters with
  | .ok cs => .ok (cs.length, [])
  | .error .httpError => .ok (0, [gkeErrMsg project_id])
  | .error e => .error e

/-- list_artifact_registry_repositories: collects the repository names;
catches HttpError only (log and return the empty list); other exceptions
propagate. -/
def list_artifact_registry_repositories (project_id : String)
    (repositories : Except PyExc (List String)) :
    Except PyExc (List String × List String) :=
  match repositories with
  | .ok names => .ok (names, [])
  | .error .httpError => .ok ([], [repoListErrMsg project_id])
  | .error e => .error e

/-- Number of parameters in the definition of count_artifact_registry_images
(service, project_id, location, repository_name, credentials). -/
def count_artifact_registry_images_paramCount : Nat := 5

/-- count_artifact_registry_images proper: length of the dockerImages list;
catches HttpError only (log with repository context and return 0); other
exceptions propagate. -/
def count_artifact_registry_images (repository_name : String)
    (images : Except PyExc (List Unit)) :
    Except PyExc (Nat × List String) :=
  match images with
  | .ok imgs => .ok (imgs.length, [])
  | .error .httpError => .ok (0, [imagesErrMsg repository_name])
  | .error e => .error e

/-- A Python call to count_artifact_registry_images with argCount positional
arguments: if the argument count differs from the parameter count of the
definition, Python raises TypeError at the call site, before the function
body (and its try/except) is ever entered. -/
def callImagesProbe (argCount : Nat) (repository_name : String)
    (images : Except PyExc (List Unit)) :
    Except PyExc (Nat × List String) :=
  if argCount = count_artifact_registry_images_paramCount then
    count_artifact_registry_images repository_name images
  else
    .error .typeError

/-- The image-counting loop of count_resources_for_project: for each
repository, call count_artifact_registry_images with SIX positional
arguments (source line 188 also passes artifact_registry_pbar, against five
parameters).  Returns the collected counts, the number of call attempts
made and the accumulated log; an exception aborts the loop and propagates. -/
def imageLoop (env : ProjEnv) : List String →
    Except PyExc (List Nat × Nat × List String)
  | [] => .ok ([], 0, [])
  | repo :: rest =>
    match callImagesProbe 6 repo (env.arImages repo) with
    | .error e => .error e
    | .ok (c, lg) =>
      match imageLoop env rest with
      | .error e => .error e
      | .ok (cs, n, lgs) => .ok (c :: cs, n + 1, lg ++ lgs)

/-- One summary row of the GCP report: the dictionary returned by
count_resources_for_project. -/
structure GcpRow where
  projectId : String
  runningComputeInstances : Nat
  cloudFunctions : Nat
  gkeClusters : Nat
  artifactRegistryRepositories : Nat
  artifactRegistryImages : Nat
deriving DecidableEq, Repr

/-- count_resources_for_project: runs the four probes, then fans out the
image-count calls over the repository list, and builds the summary
dictionary.  The result also carries the number of image-probe call
attempts; any exception escaping a probe or raised at the image call site
propagates out of the function (there is no handler here). -/
def count_resources_for_project (env : ProjEnv) (project_id : String) :
    Except PyExc (GcpRow × Nat) :=
  match count_running_compute_instances project_id env.computeZones with
  | .error e => .error e
  | .ok (instancesCount, _lg1) =>
    match count_cloud_functions project_id env.functionPages with
    | .error e => .error e
    | .ok (functionsCount, _lg2) =>
      match count_gke_clusters project_id env.gkeClusters with
      | .error e => .error e
      | .ok (gkeCount, _lg3) =>
        match list_artifact_registry_repositories project_id env.arRepositories with
        | .error e => .error e
        | .ok (repos, _lg4) =>
          match imageLoop env repos with
          | .error e => .error e
          | .ok (imageCounts, attempts, _lg5) =>
            .ok (GcpRow.mk project_id instancesCount functionsCount gkeCount
                   repos.length imageCounts.sum,
                 attempts)

/-- Log message of list_projects_recursive when a page of the project
listing of a folder raises. -/
def folderErrMsg (folder_id : String) : String :=
  "An error occurred while listing projects in folder " ++ folder_id

/-- Log message of list_projects_under_organization when a page of the
org-level project listing raises. -/
def orgErrMsg (organization_id : String) : String :=
  "An error occurred while listing projects under organization " ++ organization_id

/-- One folder of the GCP resource hierarchy, as the walk observes it: its
id, the successive pages of its project listing (each page a list of
project ids, or the exception that listing raises), whether its
folders().list call raises, and its child folders. -/
inductive GNode where
  | node (folderId : String) (projectPages : List (Except PyExc (List String)))
         (folderListFails : Bool) (children : List GNode)

/-- The while/try pagination loop shared by list_projects_recursive and
list_projects_under_organization: consume pages until the first exception,
which is logged (with the given message) and breaks the loop, keeping the
projects of the pages already consumed. -/
def collectPages (errMsg : String) :
    List (Except PyExc (List String)) → List String × List String
  | [] => ([], [])
  | .ok ps :: rest =>
    let r := collectPages errMsg rest
    (ps ++ r.1, r.2)
  | .error _ :: _ => ([], [errMsg])

mutual

/-- list_projects_recursive: page through the folder project listing
(exception: log and break the pagination only), then list child folders —
a call made OUTSIDE any try/except, so its failure raises — and recurse
into every child, any raise propagating. -/
def list_projects_recursive : GNode → Except PyExc (List String × List String)
  | .node folderId projectPages folderListFails children =>
    let pl := collectPages (folderErrMsg folderId) projectPages
    if folderListFails then .error .other
    else
      match walkChildren children with
      | .error e => .error e
      | .ok (cps, clogs) => .ok (pl.1 ++ cps, pl.2 ++ clogs)

/-- The sequential recursion of list_projects_recursive over a folder list;
an exception in one folder propagates and abandons the remaining
siblings. -/
def walkChildren : List GNode → Except PyExc (List String × List String)
  | [] => .ok ([], [])
  | f :: fs =>
    match list_projects_recursive f with
    | .error e => .error e
    | .ok (ps, logs) =>
      match walkChildren fs with
      | .error e => .error e
      | .ok (ps2, logs2) => .ok (ps ++ ps2, logs ++ logs2)

end

/-- The project-id collection phase of run_for_organization: org-level
project pages (pagination with the same log-and-break error handling), then
the unprotected org-level folders().list call, then list_projects_recursive
over each top-level folder. -/
def orgCollect (organization_id : String)
    (orgPages : List (Except PyExc (List String)))
    (orgFolderListFails : Bool) (folders : List GNode) :
    Except PyExc (List String × List String) :=
  let op := collectPages (orgErrMsg organization_id) orgPages
  if orgFolderListFails then .error .other
  else
    match walkChildren folders with
    | .error e => .error e
    | .ok (fps, flogs) => .ok (op.1 ++ fps, op.2 ++ flogs)

/-- The aggregation loop of run_for_organization over
projects_to_process = list(unique_project_ids): one
count_resources_for_project result per unique project id, in order; an
exception propagating out of the per-project aggregation aborts the run
before anything is written. -/
def runRows (env : String → ProjEnv) : List String → Except PyExc (List GcpRow)
  | [] => .ok []
  | p :: ps =>
    match count_resources_for_project (env p) p with
    | .error e => .error e
    | .ok (row, _attempts) =>
      match runRows env ps with
      | .error e => .error e
      | .ok rows => .ok (row :: rows)

/-- run_for_organization: collect project ids from the organization and the
folder tree, deduplicate them via a set, aggregate each unique project and
produce the data rows written to organization_resource_counts.csv. -/
def run_for_organization (organization_id : String)
    (orgPages : List (Except PyExc (List String)))
    (orgFolderListFails : Bool) (folders : List GNode)
    (env : String → ProjEnv) : Except PyExc (List GcpRow) :=
  match orgCollect organization_id orgPages orgFolderListFails folders with
  | .error e => .error e
  | .ok (allProjectIds, _logs) => runRows env allProjectIds.dedup

end GCP

namespace Azure

/-- Log message of count_virtual_machines on an exception. -/
def vmErrMsg (resource_group : String) : String :=
  "Error counting VMs in " ++ resource_group

/-- count_virtual_machines: counts the virtual machines of a resource
group; any exception is caught, logged with resource-group context, and
converted to 0. -/
def count_virtual_machines (resource_group : String)
    (vms : Except PyExc (List Unit)) : Nat × List String :=
  match vms with
  | .ok l => (l.length, [])
  | .error _ => (0, [vmErrMsg resource_group])

/-- The per-resource-group counts dictionary built by
count_resources_in_resource_group (seven fixed resource kinds). -/
structure AzureCounts where
  virtualMachines : Nat
  webApps : Nat
  containerInstances : Nat
  aksClusters : Nat
  acrRegistries : Nat
  acrImages : Nat
  azureFunctions : Nat
deriving DecidableEq, Repr

/-- The zero-initialised total_counts dictionary of process_subscription. -/
def zeroAzure : AzureCounts := AzureCounts.mk 0 0 0 0 0 0 0

/-- One step of the summation loop of process_subscription (lines 206-208):
add one resource group dictionary into total_counts, key by key. -/
def addAzure (acc c : AzureCounts) : AzureCounts :=
  AzureCounts.mk
    (acc.virtualMachines + c.virtualMachines)
    (acc.webApps + c.webApps)
    (acc.containerInstances + c.containerInstances)
    (acc.aksClusters + c.aksClusters)
    (acc.acrRegistries + c.acrRegistries)
    (acc.acrImages + c.acrImages)
    (acc.azureFunctions + c.azureFunctions)

/-- The second-level reduction of process_subscription: fold every value of
result_dict into total_counts, starting from zero. -/
def azureTotals (vals : List AzureCounts) : AzureCounts :=
  vals.foldl addAzure zeroAzure

/-- result_dict[resource_group] = counts: Python dict assignment, replacing
the value when the key is already present, appending otherwise. -/
def dictInsert (k : String) (v : AzureCounts) :
    List (String × AzureCounts) → List (String × AzureCounts)
  | [] => [(k, v)]
  | (k2, v2) :: rest =>
    if k = k2 then (k, v) :: rest else (k2, v2) :: dictInsert k v rest

/-- result_dict after all count_resources_in_resource_group threads have
been joined: one dict assignment per resource group (given here with each
group's counts dictionary). -/
def buildResultDict (groups : List (String × AzureCounts)) :
    List (String × AzureCounts) :=
  groups.foldl (fun d g => dictInsert g.1 g.2 d) []

/-- The subscription-level totals computed by process_subscription after
the join: sum the values of result_dict into total_counts. -/
def process_subscription_totals (groups : List (String × AzureCounts)) :
    AzureCounts :=
  azureTotals ((buildResultDict groups).map Prod.snd)

/-- A row of azure_resource_counts.csv: the header, or one subscription
data row. -/
inductive AzRow where
  | header
  | data (subscriptionId : String) (counts : AzureCounts)
deriving DecidableEq, Repr

/-- Whether an Azure CSV row is the header row. -/
def AzRow.isHeader : AzRow → Bool
  | .header => true
  | .data _ _ => false

/-- Number of header rows in an Azure CSV file content. -/
def azHeaderCount (rows : List AzRow) : Nat :=
  rows.countP AzRow.isHeader

/-- The row process_subscription appends for one subscription:
[subscription_id] + list(total_counts.values()). -/
def process_subscription_row (subscription_id : String)
    (groups : List (String × AzureCounts)) : AzRow :=
  AzRow.data subscription_id (process_subscription_totals groups)

/-- One subscription of a run: its id and the resource groups with their
per-group counts dictionaries. -/
structure SubEnv where
  subscriptionId : String
  groups : List (String × AzureCounts)

/-- The file effect of main: csv_exists = os.path.exists(path); the file is
opened in append mode; the header row is written only when the file did not
exist; then one data row per processed subscription is appended. -/
def azureMainFile (file : Option (List AzRow)) (subs : List SubEnv) :
    List AzRow :=
  let rows := subs.map (fun s => process_subscription_row s.subscriptionId s.groups)
  match file with
  | none => AzRow.header :: rows
  | some content => content ++ rows

end Azure

/-- Whether an Except outcome is a success. -/
def isOkOutcome {ε α : Type} : Except ε α → Bool
  | .ok _ => true
  | .error _ => false

/-- A region whose six listings all succeed with empty data. -/
def AWS.emptyRegionEnv : AWS.RegionEnv :=
  AWS.RegionEnv.mk (Except.ok []) (Except.ok []) (Except.ok [])
    (Except.ok []) (Except.ok []) (Except.ok [])

/-- A member account whose assume_role call raises. -/
def AWS.failingMember : AWS.MemberEnv :=
  AWS.MemberEnv.mk "111111111111" (Except.error PyExc.other) (Except.ok [])
    (fun _ => AWS.emptyRegionEnv)

/-- A member account whose session and region enumeration succeed, with no
active regions. -/
def AWS.okMember : AWS.MemberEnv :=
  AWS.MemberEnv.mk "333333333333" (Except.ok ()) (Except.ok [])
    (fun _ => AWS.emptyRegionEnv)

/-- An account-mode environment whose setup calls succeed, with no active
regions. -/
def AWS.sampleAccountEnv : AWS.AccountEnv :=
  AWS.AccountEnv.mk (Except.ok "222222222222") (Except.ok [])
    (fun _ => AWS.emptyRegionEnv)

/-- A GCP project whose listings all succeed and whose Artifact Registry
repository list is empty. -/
def GCP.emptyProjEnv : GCP.ProjEnv :=
  GCP.ProjEnv.mk (Except.ok []) (Except.ok []) (Except.ok [])
    (Except.ok []) (fun _ => Except.ok [])

/-- A GCP project whose listings all succeed and whose Artifact Registry
repository list holds one repository. -/
def GCP.oneRepoProjEnv : GCP.ProjEnv :=
  GCP.ProjEnv.mk (Except.ok []) (Except.ok []) (Except.ok [])
    (Except.ok ["repo1"]) (fun _ => Except.ok [])

/-! Helper lemmas. -/

theorem AWS.foldl_addCounts (l : List AWS.RegionCounts) :
    ∀ acc : AWS.RegionCounts, l.foldl AWS.addCounts acc =
      AWS.RegionCounts.mk
        (acc.running_ec2_instances + (l.map AWS.RegionCounts.running_ec2_instances).sum)
        (acc.lambda_functions + (l.map AWS.RegionCounts.lambda_functions).sum)
        (acc.ecs_fargate_tasks + (l.map AWS.RegionCounts.ecs_fargate_tasks).sum)
        (acc.eks_instances + (l.map AWS.RegionCounts.eks_instances).sum)
        (acc.ecr_repositories + (l.map AWS.RegionCounts.ecr_repositories).sum)
        (acc.ecr_images + (l.map AWS.RegionCounts.ecr_images).sum) := by
  induction l with
  | nil => intro acc; simp [AWS.addCounts]
  | cons c rest ih =>
      intro acc
      simp only [List.foldl_cons, ih, List.map_cons, List.sum_cons, AWS.addCounts]
      congr 1 <;> omega

theorem AWS.aggregateRegionCounts_eq_sums (l : List AWS.RegionCounts) :
    AWS.aggregateRegionCounts l =
      AWS.RegionCounts.mk
        ((l.map AWS.RegionCounts.running_ec2_instances).sum)
        ((l.map AWS.RegionCounts.lambda_functions).sum)
        ((l.map AWS.RegionCounts.ecs_fargate_tasks).sum)
        ((l.map AWS.RegionCounts.eks_instances).sum)
        ((l.map AWS.RegionCounts.ecr_repositories).sum)
        ((l.map AWS.RegionCounts.ecr_images).sum) := by
  simp [AWS.aggregateRegionCounts, AWS.foldl_addCounts, AWS.zeroCounts]

theorem Azure.foldl_addAzure (l : List Azure.AzureCounts) :
    ∀ acc : Azure.AzureCounts, l.foldl Azure.addAzure acc =
      Azure.AzureCounts.mk
        (acc.virtualMachines + (l.map Azure.AzureCounts.virtualMachines).sum)
        (acc.webApps + (l.map Azure.AzureCounts.webApps).sum)
        (acc.containerInstances + (l.map Azure.AzureCounts.containerInstances).sum)
        (acc.aksClusters + (l.map Azure.AzureCounts.aksClusters).sum)
        (acc.acrRegistries + (l.map Azure.AzureCounts.acrRegistries).sum)
        (acc.acrImages + (l.map Azure.AzureCounts.acrImages).sum)
        (acc.azureFunctions + (l.map Azure.AzureCounts.azureFunctions).sum) := by
  induction l with
  | nil => intro acc; simp [Azure.addAzure]
  | cons c rest ih =>
      intro acc
      simp only [List.foldl_cons, ih, List.map_cons, List.sum_cons, Azure.addAzure]
      congr 1 <;> omega

theorem Azure.azureTotals_eq_sums (l : List Azure.AzureCounts) :
    Azure.azureTotals l =
      Azure.AzureCounts.mk
        ((l.map Azure.AzureCounts.virtualMachines).sum)
        ((l.map Azure.AzureCounts.webApps).sum)
        ((l.map Azure.AzureCounts.containerInstances).sum)
        ((l.map Azure.AzureCounts.aksClusters).sum)
        ((l.map Azure.AzureCounts.acrRegistries).sum)
        ((l.map Azure.AzureCounts.acrImages).sum)
        ((l.map Azure.AzureCounts.azureFunctions).sum) := by
  simp [Azure.azureTotals, Azure.foldl_addAzure, Azure.zeroAzure]

theorem Azure.dictInsert_fresh (k : String) (v : Azure.AzureCounts) :
    ∀ d : List (String × Azure.AzureCounts), k ∉ d.map Prod.fst →
      Azure.dictInsert k v d = d ++ [(k, v)] := by
  intro d
  induction d with
  | nil => intro _; rfl
  | cons kv rest ih =>
      intro hk
      simp only [List.map_cons, List.mem_cons] at hk
      push_neg at hk
      simp [Azure.dictInsert, hk.1, ih hk.2]

theorem Azure.foldl_dictInsert (groups : List (String × Azure.AzureCounts)) :
    ∀ acc : List (String × Azure.AzureCounts),
      (groups.map Prod.fst).Nodup →
      (∀ k ∈ groups.map Prod.fst, k ∉ acc.map Prod.fst) →
      groups.foldl (fun d g => Azure.dictInsert g.1 g.2 d) acc = acc ++ groups := by
  induction groups with
  | nil => intro acc _ _; simp
  | cons g rest ih =>
      intro acc hnd hdisj
      simp only [List.map_cons, List.nodup_cons] at hnd
      have hfresh : g.1 ∉ acc.map Prod.fst := by
        exact hdisj g.1 (by simp)
      simp only [List.foldl_cons]
      rw [Azure.dictInsert_fresh g.1 g.2 acc hfresh]
      rw [ih (acc ++ [(g.1, g.2)]) hnd.2 ?_]
      · simp
      · intro k hk
        simp only [List.map_append, List.mem_append]
        push_neg
        constructor
        · exact hdisj k (by simp [hk])
        · simp only [List.map_cons, List.map_nil, List.mem_singleton]
          intro hkg
          exact hnd.1 (hkg ▸ hk)

theorem Azure.buildResultDict_eq (groups : List (String × Azure.AzureCounts))
    (hnd : (groups.map Prod.fst).Nodup) :
    Azure.buildResultDict groups = groups := by
  have h := Azure.foldl_dictInsert groups [] hnd (by simp)
  simpa [Azure.buildResultDict] using h

theorem AWS.memberRows_length (m : AWS.MemberEnv) :
    (AWS.memberRows m).length =
      (if isOkOutcome m.sessionOutcome && isOkOutcome m.regionsOutcome then 1 else 0) := by
  unfold AWS.memberRows
  cases m.sessionOutcome with
  | error e => simp [isOkOutcome]
  | ok u =>
      cases m.regionsOutcome with
      | error e => simp [isOkOutcome]
      | ok regions => simp [isOkOutcome]

theorem AWS.orgRows_length (members : List AWS.MemberEnv) :
    (AWS.orgRows members).length =
      (members.filter
        (fun m => isOkOutcome m.sessionOutcome && isOkOutcome m.regionsOutcome)).length := by
  induction members with
  | nil => rfl
  | cons m rest ih =>
      simp only [AWS.orgRows, List.map_cons, List.flatten_cons, List.length_append,
        List.filter_cons]
      rw [show ((rest.map AWS.memberRows).flatten).length =
            (AWS.orgRows rest).length from rfl, ih, AWS.memberRows_length]
      by_cases h : isOkOutcome m.sessionOutcome && isOkOutcome m.regionsOutcome
      · simp [h]; omega
      · simp [h]

theorem AWS.headerCount_memberRows (m : AWS.MemberEnv) :
    AWS.headerCount (AWS.memberRows m) = 0 := by
  unfold AWS.memberRows
  cases m.sessionOutcome with
  | error e => rfl
  | ok u =>
      cases m.regionsOutcome with
      | error e => rfl
      | ok regions => rfl

theorem AWS.headerCount_orgRows (members : List AWS.MemberEnv) :
    AWS.headerCount (AWS.orgRows members) = 0 := by
  induction members with
  | nil => rfl
  | cons m rest ih =>
      simp only [AWS.orgRows, List.map_cons, List.flatten_cons] at *
      simp only [AWS.headerCount, List.countP_append] at *
      rw [ih]
      have h := AWS.headerCount_memberRows m
      simp only [AWS.headerCount] at h
      omega

theorem GCP.crfp_projectId (env : GCP.ProjEnv) (pid : String) (r : GCP.GcpRow)
    (n : Nat) (h : GCP.count_resources_for_project env pid = Except.ok (r, n)) :
    r.projectId = pid := by
  unfold GCP.count_resources_for_project at h
  repeat (any_goals split at h)
  all_goals simp_all
  all_goals rw [← h.1]

theorem GCP.runRows_countP (env : String → GCP.ProjEnv) (pid : String) :
    ∀ (l : List String) (rows : List GCP.GcpRow),
      GCP.runRows env l = Except.ok rows →
      rows.countP (fun r => r.projectId == pid) = l.count pid := by
  intro l
  induction l with
  | nil =>
      intro rows h
      simp only [GCP.runRows] at h
      cases h
      rfl
  | cons p ps ih =>
      intro rows h
      simp only [GCP.runRows] at h
      cases hc : GCP.count_resources_for_project (env p) p with
      | error e => rw [hc] at h; exact absurd h (by simp)
      | ok v =>
          rw [hc] at h
          cases hrest : GCP.runRows env ps with
          | error e => rw [hrest] at h; simp at h
          | ok rows2 =>
              rw [hrest] at h
              cases h
              have hpid : v.1.projectId = p := GCP.crfp_projectId (env p) p v.1 v.2
                (by rw [hc])
              simp only [List.countP_cons, List.count_cons, hpid]
              rw [ih rows2 hrest]

/-! Claim theorems. -/

/-- C2, counterexample: the claim says every internal probe failure yields
count 0 AND an emitted log entry with scope and kind context, and that no
probe raises past its boundary.  The AWS EC2 probe converts an arbitrary
exception to 0 but emits NO log entry, and the GCP compute probe lets a
non-HttpError exception propagate past its boundary. -/
theorem claim_C2_counterexample :
    AWS.count_running_ec2_instances_in_region (Except.error PyExc.other) = (0, []) ∧
      GCP.count_running_compute_instances "proj-x" (Except.error PyExc.other) =
        Except.error PyExc.other :=
  ⟨rfl, rfl⟩

/-- C2, amended: every AWS probe converts any exception to count 0 with no
log entry; the GCP compute probe converts an HttpError to count 0 plus a
log entry carrying the project context but propagates any other exception;
the Azure VM probe converts any exception to count 0 plus a log entry
carrying the resource-group context. -/
theorem claim_C2_amended :
    (∀ e, AWS.count_running_ec2_instances_in_region (Except.error e) = (0, [])) ∧
    (∀ e, AWS.count_lambda_functions_in_region (Except.error e) = (0, [])) ∧
    (∀ e, AWS.count_ecs_fargate_tasks_in_region (Except.error e) = (0, [])) ∧
    (∀ e, AWS.count_eks_instances_in_region (Except.error e) = (0, [])) ∧
    (∀ e, AWS.count_ecr_repositories_in_region (Except.error e) = (0, [])) ∧
    (∀ e, AWS.count_ecr_images_in_region (Except.error e) = (0, [])) ∧
    (∀ pid, GCP.count_running_compute_instances pid (Except.error PyExc.httpError) =
      Except.ok (0, [GCP.computeErrMsg pid])) ∧
    (∀ pid, GCP.count_running_compute_instances pid (Except.error PyExc.other) =
      Except.error PyExc.other) ∧
    (∀ pid, GCP.count_running_compute_instances pid (Except.error PyExc.typeError) =
      Except.error PyExc.typeError) ∧
    (∀ rg e, Azure.count_virtual_machines rg (Except.error e) =
      (0, [Azure.vmErrMsg rg])) :=
  ⟨fun _ => rfl, fun _ => rfl, fun _ => rfl, fun _ => rfl, fun _ => rfl, fun _ => rfl,
   fun _ => rfl, fun _ => rfl, fun _ => rfl, fun _ _ => rfl⟩

/-- C3: the per-kind reduction of the fan-out aggregator is plain integer
summation, so permuting the order in which the concurrent units' results
are collected never changes the final per-kind totals — for the AWS
per-region reduction and for the Azure per-resource-group reduction. -/
theorem claim_C3_reduction_perm_invariant
    (l1 l2 : List AWS.RegionCounts) (m1 m2 : List Azure.AzureCounts)
    (hl : l1.Perm l2) (hm : m1.Perm m2) :
    AWS.aggregateRegionCounts l1 = AWS.aggregateRegionCounts l2 ∧
      Azure.azureTotals m1 = Azure.azureTotals m2 := by
  constructor
  · rw [AWS.aggregateRegionCounts_eq_sums, AWS.aggregateRegionCounts_eq_sums,
      (hl.map AWS.RegionCounts.running_ec2_instances).sum_eq,
      (hl.map AWS.RegionCounts.lambda_functions).sum_eq,
      (hl.map AWS.RegionCounts.ecs_fargate_tasks).sum_eq,
      (hl.map AWS.RegionCounts.eks_instances).sum_eq,
      (hl.map AWS.RegionCounts.ecr_repositories).sum_eq,
      (hl.map AWS.RegionCounts.ecr_images).sum_eq]
  · rw [Azure.azureTotals_eq_sums, Azure.azureTotals_eq_sums,
      (hm.map Azure.AzureCounts.virtualMachines).sum_eq,
      (hm.map Azure.AzureCounts.webApps).sum_eq,
      (hm.map Azure.AzureCounts.containerInstances).sum_eq,
      (hm.map Azure.AzureCounts.aksClusters).sum_eq,
      (hm.map Azure.AzureCounts.acrRegistries).sum_eq,
      (hm.map Azure.AzureCounts.acrImages).sum_eq,
      (hm.map Azure.AzureCounts.azureFunctions).sum_eq]

/-- C3, witness: the reduction applied to two concrete result lists in
swapped collection orders gives equal totals. -/
theorem claim_C3_witness :
    AWS.aggregateRegionCounts
        [AWS.RegionCounts.mk 1 2 3 4 5 6, AWS.RegionCounts.mk 7 8 9 10 11 12] =
      AWS.aggregateRegionCounts
        [AWS.RegionCounts.mk 7 8 9 10 11 12, AWS.RegionCounts.mk 1 2 3 4 5 6] ∧
    Azure.azureTotals [Azure.zeroAzure, Azure.AzureCounts.mk 1 1 1 1 1 1 1] =
      Azure.azureTotals [Azure.AzureCounts.mk 1 1 1 1 1 1 1, Azure.zeroAzure] :=
  claim_C3_reduction_perm_invariant _ _ _ _ (List.Perm.swap _ _ _) (List.Perm.swap _ _ _)

/-- C8: for a GCP project whose Artifact Registry repository listing
returns the empty list, count_resources_for_project reports repository
count 0 and image count 0, and makes zero image-probe call attempts (the
second component of the result): the empty repository list short-circuits
the image-count fan-out. -/
theorem claim_C8_empty_repo_list (env : GCP.ProjEnv) (project_id : String)
    (zones functionPages : List (List Unit)) (clusters : List Unit)
    (hc : env.computeZones = Except.ok zones)
    (hf : env.functionPages = Except.ok functionPages)
    (hg : env.gkeClusters = Except.ok clusters)
    (hr : env.arRepositories = Except.ok []) :
    GCP.count_resources_for_project env project_id =
      Except.ok
        (GCP.GcpRow.mk project_id ((zones.map List.length).sum)
          ((functionPages.map List.length).sum) clusters.length 0 0, 0) := by
  unfold GCP.count_resources_for_project
  rw [hc, hf, hg, hr]
  rfl

/-- C8, witness: a concrete project with all listings empty reports zero
repositories, zero images and zero image-probe call attempts. -/
theorem claim_C8_witness :
    GCP.count_resources_for_project GCP.emptyProjEnv "proj-empty" =
      Except.ok (GCP.GcpRow.mk "proj-empty" 0 0 0 0 0, 0) :=
  claim_C8_empty_repo_list GCP.emptyProjEnv "proj-empty" [] [] [] rfl rfl rfl rfl

/-- C9: in org mode, for every project whose Artifact Registry repository
list is non-empty, the per-project aggregation raises TypeError:
count_resources_for_project calls count_artifact_registry_images with six
positional arguments against a five-parameter definition, at a call site
outside any exception handler, so the error propagates out of the
aggregation. -/
theorem claim_C9_arity_type_error (env : GCP.ProjEnv) (project_id : String)
    (zones functionPages : List (List Unit)) (clusters : List Unit)
    (repo : String) (repos : List String)
    (hc : env.computeZones = Except.ok zones)
    (hf : env.functionPages = Except.ok functionPages)
    (hg : env.gkeClusters = Except.ok clusters)
    (hr : env.arRepositories = Except.ok (repo :: repos)) :
    GCP.count_resources_for_project env project_id = Except.error PyExc.typeError := by
  unfold GCP.count_resources_for_project
  rw [hc, hf, hg, hr]
  rfl

/-- C9, witness: a concrete project with one repository makes the
aggregation return the TypeError. -/
theorem claim_C9_witness :
    GCP.count_resources_for_project GCP.oneRepoProjEnv "proj-one" =
      Except.error PyExc.typeError :=
  claim_C9_arity_type_error GCP.oneRepoProjEnv "proj-one" [] [] [] "repo1" []
    rfl rfl rfl rfl

/-- C1, counterexample: a scope tree with exactly one leaf scope (one member
account) whose role-assumption call fails produces a report with zero data
rows, not one: the org-mode loop logs and skips the account, so the claimed
"exactly N rows regardless of failures" does not hold for every run. -/
theorem claim_C1_counterexample :
    AWS.orgRows [AWS.failingMember] = [] ∧ [AWS.failingMember].length = 1 :=
  ⟨rfl, rfl⟩

/-- C1, amended: in org mode the report gains exactly one data row per
member account whose session creation and region enumeration both succeed
(probe outcomes never change the row count, since they only affect the
counts inside the row); in account mode, when caller identity and region
enumeration succeed, the file is left with exactly the header plus the
single data row for the queried account. -/
theorem claim_C1_amended :
    (∀ members : List AWS.MemberEnv,
      (AWS.orgRows members).length =
        (members.filter
          (fun m => isOkOutcome m.sessionOutcome && isOkOutcome m.regionsOutcome)).length) ∧
    (∀ (env : AWS.AccountEnv) (file : Option (List AWS.Row)) (acct : String)
        (regions : List String),
      env.identityOutcome = Except.ok acct →
      env.regionsOutcome = Except.ok regions →
      AWS.accountRunFile env file =
        some [AWS.Row.header, AWS.accountRow acct regions env.regionEnv]) := by
  constructor
  · exact AWS.orgRows_length
  · intro env file acct regions hid hr
    unfold AWS.accountRunFile
    rw [hid, hr]

/-- C1, witness: a concrete account-mode run with successful setup leaves
exactly the header row and the single data row in the file. -/
theorem claim_C1_witness :
    AWS.accountRunFile AWS.sampleAccountEnv (some [AWS.Row.header]) =
      some [AWS.Row.header,
        AWS.accountRow "222222222222" [] AWS.sampleAccountEnv.regionEnv] :=
  claim_C1_amended.2 AWS.sampleAccountEnv (some [AWS.Row.header]) "222222222222" []
    rfl rfl

/-- C10: account mode opens resource_counts.csv in write mode, so whatever
the file held before the run is discarded and afterwards it holds exactly
the header row plus the single data row for the queried account, while org
mode opens the same file in append mode and preserves the existing
content. -/
theorem claim_C10_write_vs_append (env : AWS.AccountEnv) (acct : String)
    (regions : List String)
    (hid : env.identityOutcome = Except.ok acct)
    (hr : env.regionsOutcome = Except.ok regions) :
    (∀ file : Option (List AWS.Row),
      AWS.accountRunFile env file =
        some [AWS.Row.header, AWS.accountRow acct regions env.regionEnv]) ∧
    (∀ (members : List AWS.MemberEnv) (content : List AWS.Row),
      AWS.orgRunFile members (some content) =
        some (content ++ AWS.orgRows members)) := by
  constructor
  · intro file
    unfold AWS.accountRunFile
    rw [hid, hr]
  · intro members content
    unfold AWS.orgRunFile
    cases horg : AWS.orgRows members with
    | nil => simp
    | cons r rs => simp

/-- C10, witness: with a concrete pre-existing file content, account mode
leaves exactly the header and one data row, and org mode appends to the
existing content. -/
theorem claim_C10_witness :
    AWS.accountRunFile AWS.sampleAccountEnv
        (some [AWS.Row.data "999999999999" AWS.zeroCounts]) =
      some [AWS.Row.header,
        AWS.accountRow "222222222222" [] AWS.sampleAccountEnv.regionEnv] :=
  (claim_C10_write_vs_append AWS.sampleAccountEnv "222222222222" [] rfl rfl).1
    (some [AWS.Row.data "999999999999" AWS.zeroCounts])

/-- C6, counterexample: an AWS org-mode run over one successful member
account, starting with no existing file, creates resource_counts.csv with
zero header rows — the header is not written when the destination table is
first created on this path, contradicting the claim. -/
theorem claim_C6_counterexample :
    AWS.orgRunFile [AWS.okMember] none =
        some [AWS.Row.data "333333333333" AWS.zeroCounts] ∧
      AWS.headerCount [AWS.Row.data "333333333333" AWS.zeroCounts] = 0 :=
  ⟨rfl, rfl⟩

/-- C6, amended: the Azure sink behaves as claimed — the header is written
exactly once, when the file does not yet exist (an os.path.exists test),
and appending to an existing file adds data rows only, never a second
header.  The AWS sink does not: org mode never writes a header (appends
leave the header count of the prior content unchanged, and a file first
created by org mode has no header), and account mode truncates and writes a
fresh header on every run without any existence test. -/
theorem claim_C6_amended :
    (∀ subs : List Azure.SubEnv,
      Azure.azHeaderCount (Azure.azureMainFile none subs) = 1) ∧
    (∀ (content : List Azure.AzRow) (subs : List Azure.SubEnv),
      Azure.azHeaderCount (Azure.azureMainFile (some content) subs) =
        Azure.azHeaderCount content) ∧
    (∀ (members : List AWS.MemberEnv) (content : List AWS.Row),
      AWS.headerCount ((AWS.orgRunFile members (some content)).getD []) =
        AWS.headerCount content) ∧
    (∀ members : List AWS.MemberEnv, AWS.headerCount (AWS.orgRows members) = 0) ∧
    (∀ (env : AWS.AccountEnv) (file : Option (List AWS.Row)) (acct : String)
        (regions : List String),
      env.identityOutcome = Except.ok acct →
      env.regionsOutcome = Except.ok regions →
      AWS.headerCount ((AWS.accountRunFile env file).getD []) = 1) := by
  refine ⟨?_, ?_, ?_, AWS.headerCount_orgRows, ?_⟩
  · intro subs
    simp only [Azure.azureMainFile, Azure.azHeaderCount, List.countP_cons]
    have h : (subs.map
        (fun s => Azure.process_subscription_row s.subscriptionId s.groups)).countP
          Azure.AzRow.isHeader = 0 := by
      induction subs with
      | nil => rfl
      | cons s rest ih =>
          simp only [Azure.process_subscription_row] at ih
          simp only [List.map_cons, List.countP_cons,
            Azure.process_subscription_row, Azure.AzRow.isHeader, ih]
          rfl
    simp [h, Azure.AzRow.isHeader]
  · intro content subs
    simp only [Azure.azureMainFile, Azure.azHeaderCount, List.countP_append]
    have h : (subs.map
        (fun s => Azure.process_subscription_row s.subscriptionId s.groups)).countP
          Azure.AzRow.isHeader = 0 := by
      induction subs with
      | nil => rfl
      | cons s rest ih =>
          simp only [Azure.process_subscription_row] at ih
          simp only [List.map_cons, List.countP_cons,
            Azure.process_subscription_row, Azure.AzRow.isHeader, ih]
          rfl
    simp [h]
  · intro members content
    unfold AWS.orgRunFile
    cases horg : AWS.orgRows members with
    | nil => rfl
    | cons r rs =>
        simp only [Option.getD_some]
        have h0 : AWS.headerCount (r :: rs) = 0 := horg ▸ AWS.headerCount_orgRows members
        simp only [AWS.headerCount, List.countP_append] at *
        omega
  · intro env file acct regions hid hr
    unfold AWS.accountRunFile
    rw [hid, hr]
    rfl

/-- C6, amended witness: a concrete account-mode run writes exactly one
header row. -/
theorem claim_C6_witness :
    AWS.headerCount ((AWS.accountRunFile AWS.sampleAccountEnv none).getD []) = 1 :=
  claim_C6_amended.2.2.2.2 AWS.sampleAccountEnv none "222222222222" [] rfl rfl

/-- C5, counterexample: a walk over two sibling folders where the first
folder's child-folder listing call raises — that call sits outside any
try/except in list_projects_recursive, so the exception propagates, the
whole walk aborts, and the second sibling (which holds project p2) is never
walked, contradicting "stops expansion of that branch only". -/
theorem claim_C5_counterexample :
    GCP.walkChildren
        [GCP.GNode.node "f1" [] true [],
         GCP.GNode.node "f2" [Except.ok ["p2"]] false []] =
      Except.error PyExc.other :=
  rfl

/-- C5, amended: a failure while paginating one folder's project listing is
logged and stops only that folder's remaining project pages — the folder's
child folders are still expanded and the walk continues; but a failure of a
folder's child-folder listing call is not caught: it propagates and aborts
the entire walk. -/
theorem claim_C5_amended :
    (∀ (fid : String) (rest : List (Except PyExc (List String)))
        (children : List GCP.GNode) (cps clogs : List String),
      GCP.walkChildren children = Except.ok (cps, clogs) →
      GCP.list_projects_recursive
          (GCP.GNode.node fid (Except.error PyExc.other :: rest) false children) =
        Except.ok (cps, GCP.folderErrMsg fid :: clogs)) ∧
    (∀ (fid : String) (pages : List (Except PyExc (List String)))
        (children : List GCP.GNode),
      GCP.list_projects_recursive (GCP.GNode.node fid pages true children) =
        Except.error PyExc.other) := by
  constructor
  · intro fid rest children cps clogs h
    unfold GCP.list_projects_recursive
    rw [h]
    rfl
  · intro fid pages children
    unfold GCP.list_projects_recursive
    rfl

/-- C5, witness: a concrete folder whose first project page raises still
returns (with the failure logged), its child folder's project still
collected. -/
theorem claim_C5_witness :
    GCP.list_projects_recursive
        (GCP.GNode.node "f9" [Except.error PyExc.other] false
          [GCP.GNode.node "f10" [Except.ok ["p10"]] false []]) =
      Except.ok (["p10"], [GCP.folderErrMsg "f9"]) :=
  claim_C5_amended.1 "f9" [] [GCP.GNode.node "f10" [Except.ok ["p10"]] false []]
    ["p10"] [] rfl

/-- C7: the subscription-level summary of process_subscription equals, for
each of the seven resource kinds, the sum of that kind's counts over the
resource-group-level summaries stored in result_dict, which the threads
fill and which is reduced only after every thread has been joined (the
reduction consumes the completed dictionary). -/
theorem claim_C7_subscription_totals (groups : List (String × Azure.AzureCounts))
    (hnd : (groups.map Prod.fst).Nodup) :
    (Azure.process_subscription_totals groups).virtualMachines =
        (groups.map (fun g => g.2.virtualMachines)).sum ∧
      (Azure.process_subscription_totals groups).webApps =
        (groups.map (fun g => g.2.webApps)).sum ∧
      (Azure.process_subscription_totals groups).containerInstances =
        (groups.map (fun g => g.2.containerInstances)).sum ∧
      (Azure.process_subscription_totals groups).aksClusters =
        (groups.map (fun g => g.2.aksClusters)).sum ∧
      (Azure.process_subscription_totals groups).acrRegistries =
        (groups.map (fun g => g.2.acrRegistries)).sum ∧
      (Azure.process_subscription_totals groups).acrImages =
        (groups.map (fun g => g.2.acrImages)).sum ∧
      (Azure.process_subscription_totals groups).azureFunctions =
        (groups.map (fun g => g.2.azureFunctions)).sum := by
  unfold Azure.process_subscription_totals
  rw [Azure.buildResultDict_eq groups hnd, Azure.azureTotals_eq_sums]
  simp [List.map_map, Function.comp]
  exact ⟨rfl, rfl, rfl, rfl, rfl, rfl, rfl⟩

/-- C7, witness: two concrete resource groups with distinct names sum into
the subscription-level summary kind by kind. -/
theorem claim_C7_witness :
    (Azure.process_subscription_totals
        [("rg1", Azure.AzureCounts.mk 1 2 3 4 5 6 7),
         ("rg2", Azure.AzureCounts.mk 10 20 30 40 50 60 70)]).virtualMachines =
      ([("rg1", Azure.AzureCounts.mk 1 2 3 4 5 6 7),
        ("rg2", Azure.AzureCounts.mk 10 20 30 40 50 60 70)].map
          (fun g => g.2.virtualMachines)).sum :=
  (claim_C7_subscription_totals
      [("rg1", Azure.AzureCounts.mk 1 2 3 4 5 6 7),
       ("rg2", Azure.AzureCounts.mk 10 20 30 40 50 60 70)] (by decide)).1

/-- C4: in the GCP org-mode walk, a project id collected more than once
(reachable through several folder paths) appears exactly once in the
deduplicated leaf set (list(set(all_project_ids))) handed to aggregation,
and exactly once among the data rows of the persisted report. -/
theorem claim_C4_org_dedup (orgId : String)
    (orgPages : List (Except PyExc (List String))) (orgFolderListFails : Bool)
    (folders : List GCP.GNode) (env : String → GCP.ProjEnv)
    (ids logs : List String) (rows : List GCP.GcpRow) (pid : String)
    (hcollect : GCP.orgCollect orgId orgPages orgFolderListFails folders =
      Except.ok (ids, logs))
    (hrun : GCP.run_for_organization orgId orgPages orgFolderListFails folders env =
      Except.ok rows)
    (hc : 2 ≤ ids.count pid) :
    ids.dedup.count pid = 1 ∧
      rows.countP (fun r => r.projectId == pid) = 1 := by
  have hmem : pid ∈ ids := List.count_pos_iff.mp (by omega)
  have h1 : ids.dedup.count pid = 1 :=
    List.count_eq_one_of_mem (List.nodup_dedup ids) (List.mem_dedup.mpr hmem)
  refine ⟨h1, ?_⟩
  unfold GCP.run_for_organization at hrun
  rw [hcollect] at hrun
  rw [GCP.runRows_countP env pid ids.dedup rows hrun]
  exact h1

/-- C4, witness: the same project id under two sibling folders is collected
twice, deduplicated to one leaf, and produces exactly one report row. -/
theorem claim_C4_witness :
    (["dup", "dup"] : List String).dedup.count "dup" = 1 ∧
      ([GCP.GcpRow.mk "dup" 0 0 0 0 0].countP (fun r => r.projectId == "dup")) = 1 :=
  claim_C4_org_dedup "org1" [] false
    [GCP.GNode.node "f1" [Except.ok ["dup"]] false [],
     GCP.GNode.node "f2" [Except.ok ["dup"]] false []]
    (fun _ => GCP.emptyProjEnv) ["dup", "dup"] [] [GCP.GcpRow.mk "dup" 0 0 0 0 0]
    "dup" rfl rfl (by decide)
